import Mathlib

/-!
Verification development for rebouncer, a failover controller that watches a
set of PostgreSQL servers and repoints a pgbouncer configuration symlink at
the current master.  The definitions below are a shallow embedding of the Go
source (rebouncer.go, server checking, config, and the HTTP nagios handler):
pure decision logic is translated directly; interactions with the outside
world (opening connections, removing and creating the symlink, issuing
RELOAD, the probe/timeout race, clock reads) are made explicit as oracle
parameters and a small filesystem/effect state, so that every branch of the
original control flow is represented.
-/

namespace Rebouncer

/-- Server status, mirroring the Go constants DOWN, STANDBY, MASTER
declared in rebouncer.go. -/
inductive Status where
  | DOWN
  | STANDBY
  | MASTER
  deriving DecidableEq, Repr

/-- Mirror of the Go struct Server: name, connection string, last observed
status, and the two bookkeeping timestamps lastcheck and laststate.
Timestamps are modelled as natural numbers (seconds on a monotone clock). -/
structure Server where
  name : String
  connstr : String
  status : Status
  lastcheck : Nat
  laststate : Nat
  deriving DecidableEq, Repr

/-- Embedding of the result computation of (server) Check in the Go source:
a failed connection open or a failed query both yield DOWN (the function has
no error return path at all), otherwise pg_is_in_recovery decides STANDBY
versus MASTER.  The two failure modes and the query answer are oracle
inputs. -/
def check (connErr : Bool) (queryErr : Bool) (inrecovery : Bool) : Status :=
  if connErr then Status.DOWN
  else if queryErr then Status.DOWN
  else if inrecovery then Status.STANDBY
  else Status.MASTER

/-- Embedding of (server) CheckWithTimeout.  The Go select races the probe
result channel against a timeout; the race outcome is the oracle parameter
arrived (true when the probe result wins the race, false when the timeout
fires first, in which case the late result res is never read).  tState and
tCheck are the values of the two time.Now() calls, in program order. -/
def CheckWithTimeout (server : Server) (arrived : Bool) (res : Status)
    (tState tCheck : Nat) : Server :=
  let s1 :=
    if arrived then
      if server.status ≠ res then
        { server with status := res, laststate := tState }
      else server
    else
      if server.status ≠ Status.DOWN then
        { server with status := Status.DOWN, laststate := tState }
      else server
  { s1 with lastcheck := tCheck }

/-- Helper mirroring strings.TrimRight(configdir, "/") in MakeActiveMaster:
drop every trailing slash. -/
def trimRightSlashes (s : String) : String :=
  String.mk ((s.data.reverse.dropWhile (fun c => c = '/')).reverse)

/-- The symlink target built in MakeActiveMaster:
fmt.Sprintf of configdir (right-trimmed of slashes), the server name and
the .ini suffix. -/
def iniTarget (configdir : String) (name : String) : String :=
  trimRightSlashes configdir ++ "/" ++ name ++ ".ini"

/-- Outcome oracles for the four externally-fallible operations of
MakeActiveMaster.  connOk: pgbouncer.OpenConnection succeeds.  removeOk: no
extraneous os.Remove failure (the missing-link failure is determined by the
filesystem state itself).  symlinkOk: no extraneous os.Symlink failure (the
path is certainly absent after a successful removal).  reloadOk: the RELOAD
command succeeds. -/
structure ActEnv where
  connOk : Bool
  removeOk : Bool
  symlinkOk : Bool
  reloadOk : Bool
  deriving DecidableEq, Repr

/-- Mutable state touched by MakeActiveMaster: the active-configuration
symlink (none when the path is absent, some target otherwise), the count of
RELOAD commands issued so far, and the global aggressiveChecks flag. -/
structure SysState where
  symlink : Option String
  reloads : Nat
  aggressiveChecks : Bool
  deriving DecidableEq, Repr

/-- One attempted operation of MakeActiveMaster, recorded in program
order. -/
inductive Step where
  | adminConnect
  | removeLink
  | createLink (target : String)
  | reload
  deriving DecidableEq, Repr

/-- Embedding of (server) MakeActiveMaster.  The Go function opens an admin
connection to pgbouncer, removes the symlink, creates the new symlink,
issues RELOAD, and on full success sets aggressiveChecks; each failure is
logged and returns immediately.  The returned list records the operations
that were attempted, in order; os.Remove fails when the path does not exist
(symlink = none) or on an extraneous error; aggressiveChecks is set only
after a successful RELOAD. -/
def MakeActiveMaster (configdir : String) (name : String) (env : ActEnv)
    (st : SysState) : SysState × List Step :=
  if env.connOk = false then
    (st, [Step.adminConnect])
  else if st.symlink = none ∨ env.removeOk = false then
    (st, [Step.adminConnect, Step.removeLink])
  else
    let st1 : SysState := { st with symlink := none }
    if env.symlinkOk = false then
      (st1, [Step.adminConnect, Step.removeLink,
             Step.createLink (iniTarget configdir name)])
    else
      let st2 : SysState := { st1 with symlink := some (iniTarget configdir name) }
      let st3 : SysState := { st2 with reloads := st2.reloads + 1 }
      if env.reloadOk = false then
        (st3, [Step.adminConnect, Step.removeLink,
               Step.createLink (iniTarget configdir name), Step.reload])
      else
        ({ st3 with aggressiveChecks := true },
         [Step.adminConnect, Step.removeLink,
          Step.createLink (iniTarget configdir name), Step.reload])

/-- Embedding of the master-search loop of mainloop (lines 195 to 207): walk
the server list keeping the first MASTER found as newmaster; every further
MASTER sets disable.  The accumulator parameters are the loop variables. -/
def findNewMasterAux : List Server → Option Server → Bool → Option Server × Bool
  | [], newmaster, disable => (newmaster, disable)
  | s :: rest, newmaster, disable =>
    if s.status = Status.MASTER then
      match newmaster with
      | some m => findNewMasterAux rest (some m) true
      | none => findNewMasterAux rest (some s) disable
    else
      findNewMasterAux rest newmaster disable

/-- The role resolution of one round: first master found plus the disable
flag (true when more than one master was seen). -/
def findNewMaster (servers : List Server) : Option Server × Bool :=
  findNewMasterAux servers none false

/-- Embedding of lines 212 to 214 of mainloop: clear aggressiveChecks when
it is set and the pgbouncer health probe reports MASTER. -/
def deactivateAggressive (sys : SysState) (health : Status) : SysState :=
  if sys.aggressiveChecks = true ∧ health = Status.MASTER then
    { sys with aggressiveChecks := false }
  else sys

/-- Result of the per-round decision phase of mainloop: the (possibly
updated) currentmaster, the system state, and the operations attempted by
any MakeActiveMaster invocation this round. -/
structure RoundResult where
  currentmaster : Option String
  sys : SysState
  trace : List Step
  deriving DecidableEq, Repr

/-- Embedding of the decision phase of one mainloop round (lines 194 to
236), taking the post-probe server list, the pgbouncer health status, and
currentmaster (identified by name; the Go pointer comparison newmaster !=
currentmaster coincides with name comparison because server names are
unique map keys).  Zero masters or a set disable flag leave everything
untouched; a changed master invokes MakeActiveMaster and then
unconditionally assigns currentmaster; an unchanged master with an
unhealthy pgbouncer re-invokes MakeActiveMaster for the same server. -/
def roundDecision (configdir : String) (servers : List Server)
    (health : Status) (currentmaster : Option String) (env : ActEnv)
    (sys : SysState) : RoundResult :=
  let nm := findNewMaster servers
  let sys1 := deactivateAggressive sys health
  match nm with
  | (none, _) => ⟨currentmaster, sys1, []⟩
  | (some s, disable) =>
    if disable then ⟨currentmaster, sys1, []⟩
    else if currentmaster ≠ some s.name then
      let r := MakeActiveMaster configdir s.name env sys1
      ⟨some s.name, r.1, r.2⟩
    else if health ≠ Status.MASTER then
      let r := MakeActiveMaster configdir s.name env sys1
      ⟨currentmaster, r.1, r.2⟩
    else ⟨currentmaster, sys1, []⟩

/-- Number of servers whose status is MASTER. -/
def masterCount (servers : List Server) : Nat :=
  (servers.filter (fun s => decide (s.status = Status.MASTER))).length

/-- Number of servers whose status is STANDBY. -/
def standbyCount (servers : List Server) : Nat :=
  (servers.filter (fun s => decide (s.status = Status.STANDBY))).length

/-- Number of servers whose status is DOWN (in the Go loop: neither MASTER
nor STANDBY). -/
def downCount (servers : List Server) : Nat :=
  (servers.filter (fun s => decide (s.status = Status.DOWN))).length

/-- Running minimum of the lastcheck fields, started from the first
time.Now() of httpNagiosHandler, mirroring the oldestcheck loop variable. -/
def minCheckFrom (oldest : Nat) : List Server → Nat
  | [] => oldest
  | s :: rest =>
    minCheckFrom (if s.lastcheck < oldest then s.lastcheck else oldest) rest

/-- Embedding of the counting loop of httpNagiosHandler: one pass over the
servers accumulating the master, standby and down counts and the oldest
lastcheck value. -/
def nagiosScanAux : List Server → Nat → Nat → Nat → Nat → Nat × Nat × Nat × Nat
  | [], mc, sc, dc, oldest => (mc, sc, dc, oldest)
  | s :: rest, mc, sc, dc, oldest =>
    let oldest1 := if s.lastcheck < oldest then s.lastcheck else oldest
    if s.status = Status.MASTER then nagiosScanAux rest (mc + 1) sc dc oldest1
    else if s.status = Status.STANDBY then nagiosScanAux rest mc (sc + 1) dc oldest1
    else nagiosScanAux rest mc sc (dc + 1) oldest1

/-- Nagios level of the response written by httpNagiosHandler, read off the
prefix of the chosen format string. -/
inductive NagiosLevel where
  | OK
  | WARNING
  | CRITICAL
  deriving DecidableEq, Repr

/-- The if chain of httpNagiosHandler reduced to its classification. -/
def nagiosLevel (mastercount : Nat) (downcount : Nat)
    (secondssincelast maxage : Int) : NagiosLevel :=
  if mastercount = 0 then NagiosLevel.CRITICAL
  else if mastercount > 1 then NagiosLevel.CRITICAL
  else if downcount > 0 then NagiosLevel.WARNING
  else if secondssincelast > maxage then NagiosLevel.WARNING
  else NagiosLevel.OK

/-- The exact one-line bodies written by httpNagiosHandler, with the
fmt.Fprintf verbs spliced as decimal renderings. -/
def nagiosMessage (mastercount standbycount downcount : Nat)
    (secondssincelast maxage : Int) : String :=
  if mastercount = 0 then
    "CRITICAL: No master available (" ++ toString standbycount ++
      " standbys, " ++ toString downcount ++ " down)"
  else if mastercount > 1 then
    "CRITICAL: Multiple masters available! Split brain waning! (" ++
      toString mastercount ++ " masters, " ++ toString standbycount ++
      " standbys, " ++ toString downcount ++ " down)"
  else if downcount > 0 then
    "WARNING: " ++ toString downcount ++ " servers down (" ++
      toString mastercount ++ " master, " ++ toString standbycount ++
      " standbys active)"
  else if secondssincelast > maxage then
    "WARNING: oldest check " ++ toString secondssincelast ++
      " seconds ago, more than " ++ toString maxage
  else
    "OK: " ++ toString mastercount ++ " masters, " ++
      toString standbycount ++ " standbys active"

/-- Embedding of httpNagiosHandler: scan the snapshot, derive
secondssincelast (in whole seconds, as the int64 truncation does for the
nonnegative difference) and maxage = 3 times the configured interval, and
produce the classification together with the written line. -/
def httpNagiosHandler (now interval : Nat) (servers : List Server) :
    NagiosLevel × String :=
  let scan := nagiosScanAux servers 0 0 0 now
  let mc := scan.1
  let sc := scan.2.1
  let dc := scan.2.2.1
  let oldestcheck := scan.2.2.2
  let secondssincelast : Int := (now : Int) - (oldestcheck : Int)
  let maxage : Int := (interval : Int) * 3
  (nagiosLevel mc dc secondssincelast maxage,
   nagiosMessage mc sc dc secondssincelast maxage)

/-- Character-list prefix test, spelled out to keep the development
self-contained. -/
def isPrefixChars : List Char → List Char → Bool
  | [], _ => true
  | _ :: _, [] => false
  | a :: as, b :: bs => a = b && isPrefixChars as bs

/-- Substring occurrence test on character lists. -/
def containsChars (needle : List Char) : List Char → Bool
  | [] => needle.isEmpty
  | c :: rest => isPrefixChars needle (c :: rest) || containsChars needle rest

/-- Substring occurrence test on strings: needle occurs somewhere in
hay. -/
def strContains (hay needle : String) : Bool :=
  containsChars needle.data hay.data

/-- C3: every probe invocation records exactly one result in DOWN, STANDBY,
MASTER: the Check result function is total (failures are folded into DOWN,
never returned as an error), so any connection or query failure yields DOWN;
the recorded status of CheckWithTimeout is uniquely determined as the probe
result when it wins the race and DOWN when the timeout fires first; and on a
timeout the late probe result is discarded, the updated server being
independent of it. -/
theorem probe_single_result_down_on_failure_or_timeout :
    (∀ (connErr queryErr inrecovery : Bool),
      (connErr = true ∨ queryErr = true) →
        check connErr queryErr inrecovery = Status.DOWN)
    ∧ (∀ (server : Server) (arrived : Bool) (res : Status) (tState tCheck : Nat),
        (CheckWithTimeout server arrived res tState tCheck).status =
          if arrived then res else Status.DOWN)
    ∧ (∀ (server : Server) (res res2 : Status) (tState tCheck : Nat),
        CheckWithTimeout server false res tState tCheck =
          CheckWithTimeout server false res2 tState tCheck) := by
  refine ⟨?_, ?_, ?_⟩
  · intro c q r h
    rcases h with h | h
    · subst h; simp [check]
    · subst h; cases c <;> simp [check]
  · intro server arrived res tS tC
    cases arrived <;> simp [CheckWithTimeout] <;> split <;> simp_all
  · intro server res res2 tS tC
    simp [CheckWithTimeout]

/-- Witness for C3 at concrete inputs: a connection failure resolves to
DOWN, and a timed-out probe of a STANDBY server records DOWN. -/
theorem probe_single_result_witness :
    check true false false = Status.DOWN
    ∧ (CheckWithTimeout (Server.mk "a" "c" Status.STANDBY 0 0) false
        Status.MASTER 1 2).status = (if false then Status.MASTER else Status.DOWN) :=
  ⟨probe_single_result_down_on_failure_or_timeout.1 true false false (Or.inl rfl),
   probe_single_result_down_on_failure_or_timeout.2.1
     (Server.mk "a" "c" Status.STANDBY 0 0) false Status.MASTER 1 2⟩

/-- C9: after a completed probe, lastcheck is the later clock read tCheck
regardless of outcome, laststate equals the earlier clock read tState
exactly when the recorded status differs from the previous one (and is
untouched otherwise), and under clock monotonicity the invariant
laststate is at most lastcheck holds after the probe. -/
theorem checkWithTimeout_timestamp_update
    (server : Server) (arrived : Bool) (res : Status) (tState tCheck : Nat)
    (hmono : server.laststate ≤ tState) (horder : tState ≤ tCheck) :
    (CheckWithTimeout server arrived res tState tCheck).lastcheck = tCheck
    ∧ (CheckWithTimeout server arrived res tState tCheck).laststate =
        (if (CheckWithTimeout server arrived res tState tCheck).status ≠ server.status
         then tState else server.laststate)
    ∧ (CheckWithTimeout server arrived res tState tCheck).laststate ≤
        (CheckWithTimeout server arrived res tState tCheck).lastcheck := by
  cases arrived
  · by_cases h : server.status = Status.DOWN
    · simp [CheckWithTimeout, h]
      all_goals omega
    · simp [CheckWithTimeout, h, Ne.symm h]
      all_goals omega
  · by_cases h : server.status = res
    · simp [CheckWithTimeout, h]
      all_goals omega
    · simp [CheckWithTimeout, h, Ne.symm h]
      all_goals omega

/-- Witness for C9: probing a STANDBY server that answers MASTER at clock
values 1 and 2. -/
theorem checkWithTimeout_timestamp_witness :
    (CheckWithTimeout (Server.mk "a" "c" Status.STANDBY 0 0) true
        Status.MASTER 1 2).lastcheck = 2
    ∧ (CheckWithTimeout (Server.mk "a" "c" Status.STANDBY 0 0) true
        Status.MASTER 1 2).laststate =
        (if (CheckWithTimeout (Server.mk "a" "c" Status.STANDBY 0 0) true
              Status.MASTER 1 2).status ≠ (Server.mk "a" "c" Status.STANDBY 0 0).status
         then 1 else (Server.mk "a" "c" Status.STANDBY 0 0).laststate)
    ∧ (CheckWithTimeout (Server.mk "a" "c" Status.STANDBY 0 0) true
        Status.MASTER 1 2).laststate ≤
        (CheckWithTimeout (Server.mk "a" "c" Status.STANDBY 0 0) true
          Status.MASTER 1 2).lastcheck :=
  checkWithTimeout_timestamp_update (Server.mk "a" "c" Status.STANDBY 0 0)
    true Status.MASTER 1 2 (by decide) (by decide)

/-- C4: MakeActiveMaster attempts its operations in the fixed order admin
connect, link removal, link creation, reload, short-circuiting at the first
failure (the attempted-operation trace is always one of the four prefixes
of that sequence); a failed admin connection leaves the state untouched
with nothing but the connection attempted; and a failed link creation stops
before any reload is issued. -/
theorem makeActiveMaster_step_order_and_short_circuit
    (configdir name : String) (env : ActEnv) (st : SysState) :
    (env.connOk = false →
      MakeActiveMaster configdir name env st = (st, [Step.adminConnect]))
    ∧ (env.connOk = true → (st.symlink = none ∨ env.removeOk = false) →
      MakeActiveMaster configdir name env st =
        (st, [Step.adminConnect, Step.removeLink]))
    ∧ (env.connOk = true → env.removeOk = true → env.symlinkOk = false →
        (∃ t, st.symlink = some t) →
      (MakeActiveMaster configdir name env st).1.reloads = st.reloads
      ∧ (MakeActiveMaster configdir name env st).2 =
          [Step.adminConnect, Step.removeLink,
           Step.createLink (iniTarget configdir name)])
    ∧ ((MakeActiveMaster configdir name env st).2 = [Step.adminConnect]
      ∨ (MakeActiveMaster configdir name env st).2 =
          [Step.adminConnect, Step.removeLink]
      ∨ (MakeActiveMaster configdir name env st).2 =
          [Step.adminConnect, Step.removeLink,
           Step.createLink (iniTarget configdir name)]
      ∨ (MakeActiveMaster configdir name env st).2 =
          [Step.adminConnect, Step.removeLink,
           Step.createLink (iniTarget configdir name), Step.reload]) := by
  obtain ⟨c, rm, sl, rl⟩ := env
  obtain ⟨sym, rel, agg⟩ := st
  cases c <;> cases rm <;> cases sl <;> cases rl <;> cases sym <;>
    simp [MakeActiveMaster]

/-- Witness for C4: with a failing admin connection the actuator returns
the state unchanged having attempted only the connection. -/
theorem makeActiveMaster_step_order_witness :
    MakeActiveMaster "cfg" "a" (ActEnv.mk false true true true)
        (SysState.mk (some "x") 0 false) =
      (SysState.mk (some "x") 0 false, [Step.adminConnect]) :=
  (makeActiveMaster_step_order_and_short_circuit "cfg" "a"
    (ActEnv.mk false true true true) (SysState.mk (some "x") 0 false)).1 rfl

/-- C7: invoking MakeActiveMaster twice in succession for the same server,
with no intervening state change and no extraneous operation failures,
leaves the symlink pointing at that server's ini artifact after each
invocation, and each invocation issues exactly one RELOAD command. -/
theorem makeActiveMaster_idempotent_same_master
    (configdir name : String) (env : ActEnv) (st : SysState) (t0 : String)
    (hc : env.connOk = true) (hr : env.removeOk = true)
    (hs : env.symlinkOk = true) (hlink : st.symlink = some t0) :
    (MakeActiveMaster configdir name env st).1.symlink =
        some (iniTarget configdir name)
    ∧ (MakeActiveMaster configdir name env
          (MakeActiveMaster configdir name env st).1).1.symlink =
        some (iniTarget configdir name)
    ∧ (MakeActiveMaster configdir name env st).2.count Step.reload = 1
    ∧ (MakeActiveMaster configdir name env
          (MakeActiveMaster configdir name env st).1).2.count Step.reload = 1 := by
  obtain ⟨c, rm, sl, rl⟩ := env
  subst hc hr hs
  cases rl <;>
    simp +decide [MakeActiveMaster, hlink, List.count_cons]

/-- Witness for C7 at a concrete starting state whose link initially points
elsewhere. -/
theorem makeActiveMaster_idempotent_witness :
    (MakeActiveMaster "cfg" "a" (ActEnv.mk true true true true)
        (SysState.mk (some "old") 0 false)).1.symlink = some (iniTarget "cfg" "a")
    ∧ (MakeActiveMaster "cfg" "a" (ActEnv.mk true true true true)
          (MakeActiveMaster "cfg" "a" (ActEnv.mk true true true true)
            (SysState.mk (some "old") 0 false)).1).1.symlink =
        some (iniTarget "cfg" "a")
    ∧ (MakeActiveMaster "cfg" "a" (ActEnv.mk true true true true)
        (SysState.mk (some "old") 0 false)).2.count Step.reload = 1
    ∧ (MakeActiveMaster "cfg" "a" (ActEnv.mk true true true true)
          (MakeActiveMaster "cfg" "a" (ActEnv.mk true true true true)
            (SysState.mk (some "old") 0 false)).1).2.count Step.reload = 1 :=
  makeActiveMaster_idempotent_same_master "cfg" "a"
    (ActEnv.mk true true true true) (SysState.mk (some "old") 0 false) "old"
    rfl rfl rfl rfl

/-- C10: when the active-configuration link is absent the actuator cannot
get past the removal step: the state (in particular the absent link and the
reload counter) is returned unchanged, with an admin connection the trace
stops right after the failed removal, and neither a link creation nor a
reload is ever attempted. -/
theorem makeActiveMaster_aborts_when_link_absent
    (configdir name : String) (env : ActEnv) (st : SysState)
    (habs : st.symlink = none) :
    (MakeActiveMaster configdir name env st).1 = st
    ∧ (env.connOk = true →
        (MakeActiveMaster configdir name env st).2 =
          [Step.adminConnect, Step.removeLink])
    ∧ (∀ t, Step.createLink t ∉ (MakeActiveMaster configdir name env st).2)
    ∧ Step.reload ∉ (MakeActiveMaster configdir name env st).2 := by
  cases hc : env.connOk <;> simp [MakeActiveMaster, habs, hc]

/-- Witness for C10: a fresh deployment state with no link present. -/
theorem makeActiveMaster_absent_witness :
    (MakeActiveMaster "cfg" "a" (ActEnv.mk true true true true)
        (SysState.mk none 0 false)).1 = SysState.mk none 0 false
    ∧ Step.reload ∉ (MakeActiveMaster "cfg" "a" (ActEnv.mk true true true true)
        (SysState.mk none 0 false)).2 :=
  ⟨(makeActiveMaster_aborts_when_link_absent "cfg" "a"
      (ActEnv.mk true true true true) (SysState.mk none 0 false) rfl).1,
   (makeActiveMaster_aborts_when_link_absent "cfg" "a"
      (ActEnv.mk true true true true) (SysState.mk none 0 false) rfl).2.2.2⟩

theorem masterCount_cons (s : Server) (rest : List Server) :
    masterCount (s :: rest) =
      (if s.status = Status.MASTER then 1 else 0) + masterCount rest := by
  simp only [masterCount, List.filter_cons]
  split <;> simp_all
  omega

theorem findNewMasterAux_no_master (servers : List Server) :
    ∀ (nm : Option Server) (d : Bool), masterCount servers = 0 →
      findNewMasterAux servers nm d = (nm, d) := by
  induction servers with
  | nil => intro nm d _; rfl
  | cons s rest ih =>
    intro nm d h
    rw [masterCount_cons] at h
    by_cases hs : s.status = Status.MASTER
    · simp [hs] at h
    · simp [hs] at h
      simp [findNewMasterAux, hs]
      exact ih nm d h

theorem findNewMasterAux_disable_true (servers : List Server) :
    ∀ (nm : Option Server), (findNewMasterAux servers nm true).2 = true := by
  induction servers with
  | nil => intro nm; rfl
  | cons s rest ih =>
    intro nm
    by_cases hs : s.status = Status.MASTER
    · cases nm <;> simp [findNewMasterAux, hs] <;> exact ih _
    · simp [findNewMasterAux, hs]
      exact ih nm

theorem findNewMasterAux_disable_of_some (servers : List Server) :
    ∀ (m : Server) (d : Bool), 1 ≤ masterCount servers →
      (findNewMasterAux servers (some m) d).2 = true := by
  induction servers with
  | nil => intro m d h; simp [masterCount] at h
  | cons s rest ih =>
    intro m d h
    by_cases hs : s.status = Status.MASTER
    · simp [findNewMasterAux, hs]
      exact findNewMasterAux_disable_true rest (some m)
    · rw [masterCount_cons] at h
      simp [hs] at h
      simp [findNewMasterAux, hs]
      exact ih m d h

theorem findNewMaster_disable_of_two (servers : List Server) :
    ∀ (d : Bool), 2 ≤ masterCount servers →
      (findNewMasterAux servers none d).2 = true := by
  induction servers with
  | nil => intro d h; simp [masterCount] at h
  | cons s rest ih =>
    intro d h
    rw [masterCount_cons] at h
    by_cases hs : s.status = Status.MASTER
    · simp [hs] at h
      simp [findNewMasterAux, hs]
      exact findNewMasterAux_disable_of_some rest s d (by omega)
    · simp [hs] at h
      simp [findNewMasterAux, hs]
      exact ih d h

theorem deactivateAggressive_symlink (sys : SysState) (health : Status) :
    (deactivateAggressive sys health).symlink = sys.symlink := by
  unfold deactivateAggressive
  split <;> rfl

theorem deactivateAggressive_of_not_master (sys : SysState) (health : Status)
    (h : health ≠ Status.MASTER) : deactivateAggressive sys health = sys := by
  unfold deactivateAggressive
  split <;> simp_all

/-- C2: in a round where zero servers report MASTER, or at least two do,
the decision phase performs no actuation: the attempted-operation trace is
empty, the symlink is exactly its pre-round value, and currentmaster keeps
its previous value. -/
theorem no_actuation_when_zero_or_multiple_masters
    (configdir : String) (servers : List Server) (health : Status)
    (cm : Option String) (env : ActEnv) (sys : SysState)
    (h : masterCount servers = 0 ∨ 2 ≤ masterCount servers) :
    (roundDecision configdir servers health cm env sys).currentmaster = cm
    ∧ (roundDecision configdir servers health cm env sys).sys.symlink =
        sys.symlink
    ∧ (roundDecision configdir servers health cm env sys).trace = [] := by
  rcases h with h | h
  · have hf : findNewMaster servers = (none, false) :=
      findNewMasterAux_no_master servers none false h
    simp [roundDecision, hf, deactivateAggressive_symlink]
  · have hd : (findNewMasterAux servers none false).2 = true :=
      findNewMaster_disable_of_two servers false h
    rcases hm : findNewMaster servers with ⟨nm, d⟩
    rw [findNewMaster] at hm
    rw [hm] at hd
    cases nm with
    | none =>
      simp [roundDecision, findNewMaster, hm, deactivateAggressive_symlink]
    | some s =>
      simp only at hd
      subst hd
      simp [roundDecision, findNewMaster, hm, deactivateAggressive_symlink]

/-- Witness for C2: two simultaneous masters leave currentmaster, the
symlink and the trace untouched. -/
theorem no_actuation_witness :
    (roundDecision "cfg"
        [Server.mk "a" "c" Status.MASTER 0 0, Server.mk "b" "c" Status.MASTER 0 0]
        Status.DOWN (some "b") (ActEnv.mk true true true true)
        (SysState.mk (some "x") 0 false)).currentmaster = some "b"
    ∧ (roundDecision "cfg"
        [Server.mk "a" "c" Status.MASTER 0 0, Server.mk "b" "c" Status.MASTER 0 0]
        Status.DOWN (some "b") (ActEnv.mk true true true true)
        (SysState.mk (some "x") 0 false)).sys.symlink =
        (SysState.mk (some "x") 0 false).symlink
    ∧ (roundDecision "cfg"
        [Server.mk "a" "c" Status.MASTER 0 0, Server.mk "b" "c" Status.MASTER 0 0]
        Status.DOWN (some "b") (ActEnv.mk true true true true)
        (SysState.mk (some "x") 0 false)).trace = [] :=
  no_actuation_when_zero_or_multiple_masters "cfg"
    [Server.mk "a" "c" Status.MASTER 0 0, Server.mk "b" "c" Status.MASTER 0 0]
    Status.DOWN (some "b") (ActEnv.mk true true true true)
    (SysState.mk (some "x") 0 false) (Or.inr (by decide))

/-- Counterexample to C1 as stated: in a round whose sole master is a and
whose admin connection fails, the actuator run fails before any filesystem
change (the trace shows only the connection attempt and the system state,
symlink included, is unchanged), yet currentmaster is still updated from
none to some a rather than left unchanged. -/
theorem currentmaster_updated_despite_failed_actuation :
    roundDecision "cfg" [Server.mk "a" "c" Status.MASTER 0 0] Status.DOWN none
        (ActEnv.mk false true true true) (SysState.mk (some "x") 0 false) =
      RoundResult.mk (some "a") (SysState.mk (some "x") 0 false)
        [Step.adminConnect] := by
  decide

/-- C1 as amended: currentmaster follows the resolved unambiguous master
unconditionally - whenever a round resolves a sole master different from
currentmaster, currentmaster is assigned that master whether or not any
actuation step of the invoked MakeActiveMaster run succeeded (the result
below does not depend on the actuation environment env); in every other
round it keeps its previous value. -/
theorem currentmaster_follows_resolver_regardless_of_actuation
    (configdir : String) (servers : List Server) (health : Status)
    (cm : Option String) (env : ActEnv) (sys : SysState) :
    (roundDecision configdir servers health cm env sys).currentmaster =
      (match findNewMaster servers with
       | (some s, false) => if cm = some s.name then cm else some s.name
       | _ => cm) := by
  rcases hm : findNewMaster servers with ⟨nm, d⟩
  cases nm with
  | none => cases d <;> simp [roundDecision, hm]
  | some s =>
    cases d with
    | true => simp [roundDecision, hm]
    | false =>
      by_cases hcm : cm = some s.name
      · simp [roundDecision, hm, hcm]
        split <;> rfl
      · simp [roundDecision, hm, hcm]

/-- C5: when a round resolves a sole unambiguous master equal to
currentmaster but the pgbouncer health probe does not report MASTER, the
decision phase re-invokes MakeActiveMaster for that same master (the round
result is exactly the actuator run, with currentmaster kept); and the
aggressive-recheck flag is cleared by the deactivation step exactly when it
is set and the health probe reports MASTER. -/
theorem selfheal_reinvocation_and_aggressive_deactivation :
    (∀ (configdir : String) (servers : List Server) (health : Status)
        (env : ActEnv) (sys : SysState) (s : Server),
      findNewMaster servers = (some s, false) →
      health ≠ Status.MASTER →
      roundDecision configdir servers health (some s.name) env sys =
        RoundResult.mk (some s.name)
          (MakeActiveMaster configdir s.name env sys).1
          (MakeActiveMaster configdir s.name env sys).2)
    ∧ (∀ (sys : SysState) (health : Status),
      (sys.aggressiveChecks = true
        ∧ (deactivateAggressive sys health).aggressiveChecks = false)
      ↔ (sys.aggressiveChecks = true ∧ health = Status.MASTER)) := by
  constructor
  · intro configdir servers health env sys s hm hh
    rw [roundDecision]
    simp [hm, hh, deactivateAggressive_of_not_master sys health hh]
  · intro sys health
    unfold deactivateAggressive
    split <;> simp_all

/-- Witness for C5: currentmaster b is the sole master but the health probe
reports STANDBY, so the actuator is re-run for b; and the deactivation step
clears an active aggressive flag under a MASTER health report. -/
theorem selfheal_reinvocation_witness :
    roundDecision "cfg" [Server.mk "b" "c" Status.MASTER 0 0] Status.STANDBY
        (some (Server.mk "b" "c" Status.MASTER 0 0).name)
        (ActEnv.mk true true true true) (SysState.mk (some "x") 0 true) =
      RoundResult.mk (some (Server.mk "b" "c" Status.MASTER 0 0).name)
        (MakeActiveMaster "cfg" (Server.mk "b" "c" Status.MASTER 0 0).name
          (ActEnv.mk true true true true) (SysState.mk (some "x") 0 true)).1
        (MakeActiveMaster "cfg" (Server.mk "b" "c" Status.MASTER 0 0).name
          (ActEnv.mk true true true true) (SysState.mk (some "x") 0 true)).2
    ∧ ((SysState.mk (some "x") 0 true).aggressiveChecks = true
        ∧ (deactivateAggressive (SysState.mk (some "x") 0 true)
            Status.MASTER).aggressiveChecks = false) :=
  ⟨selfheal_reinvocation_and_aggressive_deactivation.1 "cfg"
      [Server.mk "b" "c" Status.MASTER 0 0] Status.STANDBY
      (ActEnv.mk true true true true) (SysState.mk (some "x") 0 true)
      (Server.mk "b" "c" Status.MASTER 0 0) (by decide) (by decide),
   (selfheal_reinvocation_and_aggressive_deactivation.2
      (SysState.mk (some "x") 0 true) Status.MASTER).mpr ⟨rfl, rfl⟩⟩

theorem standbyCount_cons (s : Server) (rest : List Server) :
    standbyCount (s :: rest) =
      (if s.status = Status.STANDBY then 1 else 0) + standbyCount rest := by
  simp only [standbyCount, List.filter_cons]
  split <;> simp_all
  omega

theorem downCount_cons (s : Server) (rest : List Server) :
    downCount (s :: rest) =
      (if s.status = Status.DOWN then 1 else 0) + downCount rest := by
  simp only [downCount, List.filter_cons]
  split <;> simp_all
  omega

theorem nagiosScanAux_spec (servers : List Server) :
    ∀ (mc sc dc oldest : Nat),
      nagiosScanAux servers mc sc dc oldest =
        (mc + masterCount servers, sc + standbyCount servers,
         dc + downCount servers, minCheckFrom oldest servers) := by
  induction servers with
  | nil =>
    intro mc sc dc oldest
    simp [nagiosScanAux, masterCount, standbyCount, downCount, minCheckFrom]
  | cons s rest ih =>
    intro mc sc dc oldest
    cases hs : s.status <;>
      simp [nagiosScanAux, hs, ih, masterCount_cons, standbyCount_cons,
            downCount_cons, minCheckFrom] <;>
      omega

/-- The pair returned by httpNagiosHandler, rewritten through the counting
loop: classification and message over the master, standby and down counts,
the age of the oldest check, and three times the configured interval. -/
theorem httpNagiosHandler_eq (now interval : Nat) (servers : List Server) :
    httpNagiosHandler now interval servers =
      (nagiosLevel (masterCount servers) (downCount servers)
         ((now : Int) - (minCheckFrom now servers : Int)) ((interval : Int) * 3),
       nagiosMessage (masterCount servers) (standbyCount servers)
         (downCount servers)
         ((now : Int) - (minCheckFrom now servers : Int)) ((interval : Int) * 3)) := by
  unfold httpNagiosHandler
  rw [nagiosScanAux_spec]
  simp

theorem nagiosLevel_iff (mc dc : Nat) (ssl maxage : Int) :
    (nagiosLevel mc dc ssl maxage = NagiosLevel.CRITICAL ↔ (mc = 0 ∨ 1 < mc))
    ∧ (nagiosLevel mc dc ssl maxage = NagiosLevel.WARNING ↔
        (mc = 1 ∧ (0 < dc ∨ maxage < ssl)))
    ∧ (nagiosLevel mc dc ssl maxage = NagiosLevel.OK ↔
        (mc = 1 ∧ dc = 0 ∧ ssl ≤ maxage)) := by
  unfold nagiosLevel
  split_ifs with h1 h2 h3 h4 <;> refine ⟨?_, ?_, ?_⟩ <;> simp_all <;> omega

theorem containsChars_nil_needle (hay : List Char) :
    containsChars [] hay = true := by
  cases hay <;> simp [containsChars, isPrefixChars]

theorem isPrefixChars_append_self (n rest : List Char) :
    isPrefixChars n (n ++ rest) = true := by
  induction n with
  | nil => rfl
  | cons c cs ih => simp [isPrefixChars, ih]

theorem containsChars_here (n rest : List Char) :
    containsChars n (n ++ rest) = true := by
  cases n with
  | nil => exact containsChars_nil_needle rest
  | cons c cs => simp [containsChars, isPrefixChars, isPrefixChars_append_self]

theorem containsChars_append_left (n pre hay : List Char)
    (h : containsChars n hay = true) :
    containsChars n (pre ++ hay) = true := by
  induction pre with
  | nil => simpa using h
  | cons c cs ih => simp [containsChars, ih]

theorem string_data_append (a b : String) :
    (a ++ b).data = a.data ++ b.data := rfl

theorem containsChars_self (n : List Char) : containsChars n n = true := by
  have h := containsChars_here n []
  simpa using h

theorem isPrefixChars_extend (n : List Char) :
    ∀ (hay post : List Char), isPrefixChars n hay = true →
      isPrefixChars n (hay ++ post) = true := by
  induction n with
  | nil => intro hay post _; rfl
  | cons c cs ih =>
    intro hay post h
    cases hay with
    | nil => simp [isPrefixChars] at h
    | cons b bs =>
      simp only [isPrefixChars, Bool.and_eq_true] at h
      simp only [List.cons_append, isPrefixChars, Bool.and_eq_true]
      exact ⟨h.1, ih bs post h.2⟩

theorem containsChars_append_right (n : List Char) :
    ∀ (hay post : List Char), containsChars n hay = true →
      containsChars n (hay ++ post) = true := by
  intro hay
  induction hay with
  | nil =>
    intro post h
    cases n with
    | nil => exact containsChars_nil_needle post
    | cons c cs => simp [containsChars] at h
  | cons b bs ih =>
    intro post h
    simp only [containsChars, Bool.or_eq_true] at h
    simp only [List.cons_append, containsChars, Bool.or_eq_true]
    rcases h with h | h
    · exact Or.inl (isPrefixChars_extend n (b :: bs) post h)
    · exact Or.inr (ih post h)

theorem strContains_self (s : String) : strContains s s = true :=
  containsChars_self s.data

theorem strContains_append_left (pre hay n : String)
    (h : strContains hay n = true) : strContains (pre ++ hay) n = true := by
  simp only [strContains, string_data_append]
  exact containsChars_append_left _ _ _ h

theorem strContains_append_right (hay post n : String)
    (h : strContains hay n = true) : strContains (hay ++ post) n = true := by
  simp only [strContains, string_data_append]
  exact containsChars_append_right _ _ _ h

theorem nagiosMessage_contains_zero_master (sc dc : Nat) (ssl maxage : Int) :
    strContains (nagiosMessage 0 sc dc ssl maxage) (toString sc) = true
    ∧ strContains (nagiosMessage 0 sc dc ssl maxage) (toString dc) = true := by
  have hmsg : nagiosMessage 0 sc dc ssl maxage =
      "CRITICAL: No master available (" ++ toString sc ++ " standbys, " ++
        toString dc ++ " down)" := by
    simp [nagiosMessage]
  rw [hmsg]
  constructor
  · exact strContains_append_right _ _ _
      (strContains_append_right _ _ _
        (strContains_append_right _ _ _
          (strContains_append_left _ _ _ (strContains_self _))))
  · exact strContains_append_right _ _ _
      (strContains_append_left _ _ _ (strContains_self _))

theorem nagiosMessage_contains_multi_master (mc sc dc : Nat)
    (ssl maxage : Int) (h1 : 1 < mc) :
    strContains (nagiosMessage mc sc dc ssl maxage) (toString mc) = true
    ∧ strContains (nagiosMessage mc sc dc ssl maxage) (toString sc) = true
    ∧ strContains (nagiosMessage mc sc dc ssl maxage) (toString dc) = true := by
  have h0 : ¬mc = 0 := by omega
  have hmsg : nagiosMessage mc sc dc ssl maxage =
      "CRITICAL: Multiple masters available! Split brain waning! (" ++
        toString mc ++ " masters, " ++ toString sc ++ " standbys, " ++
        toString dc ++ " down)" := by
    simp [nagiosMessage, h0, h1]
  rw [hmsg]
  refine ⟨?_, ?_, ?_⟩
  · exact strContains_append_right _ _ _
      (strContains_append_right _ _ _
        (strContains_append_right _ _ _
          (strContains_append_right _ _ _
            (strContains_append_right _ _ _
              (strContains_append_left _ _ _ (strContains_self _))))))
  · exact strContains_append_right _ _ _
      (strContains_append_right _ _ _
        (strContains_append_right _ _ _
          (strContains_append_left _ _ _ (strContains_self _))))
  · exact strContains_append_right _ _ _
      (strContains_append_left _ _ _ (strContains_self _))

theorem nagiosMessage_contains_down (mc sc dc : Nat)
    (ssl maxage : Int) (h0 : ¬mc = 0) (h1 : ¬1 < mc) (hd : 0 < dc) :
    strContains (nagiosMessage mc sc dc ssl maxage) (toString mc) = true
    ∧ strContains (nagiosMessage mc sc dc ssl maxage) (toString sc) = true
    ∧ strContains (nagiosMessage mc sc dc ssl maxage) (toString dc) = true := by
  have hmsg : nagiosMessage mc sc dc ssl maxage =
      "WARNING: " ++ toString dc ++ " servers down (" ++ toString mc ++
        " master, " ++ toString sc ++ " standbys active)" := by
    simp [nagiosMessage, h0, h1, hd]
  rw [hmsg]
  refine ⟨?_, ?_, ?_⟩
  · exact strContains_append_right _ _ _
      (strContains_append_right _ _ _
        (strContains_append_right _ _ _
          (strContains_append_left _ _ _ (strContains_self _))))
  · exact strContains_append_right _ _ _
      (strContains_append_left _ _ _ (strContains_self _))
  · exact strContains_append_right _ _ _
      (strContains_append_right _ _ _
        (strContains_append_right _ _ _
          (strContains_append_right _ _ _
            (strContains_append_right _ _ _
              (strContains_append_left _ _ _ (strContains_self _))))))

theorem nagiosMessage_contains_ok (mc sc dc : Nat)
    (ssl maxage : Int) (h0 : ¬mc = 0) (h1 : ¬1 < mc) (hd : ¬0 < dc)
    (hfresh : ¬maxage < ssl) :
    strContains (nagiosMessage mc sc dc ssl maxage) (toString mc) = true
    ∧ strContains (nagiosMessage mc sc dc ssl maxage) (toString sc) = true := by
  have hmsg : nagiosMessage mc sc dc ssl maxage =
      "OK: " ++ toString mc ++ " masters, " ++ toString sc ++
        " standbys active" := by
    simp [nagiosMessage, h0, h1, hd, hfresh]
  rw [hmsg]
  constructor
  · exact strContains_append_right _ _ _
      (strContains_append_right _ _ _
        (strContains_append_right _ _ _
          (strContains_append_left _ _ _ (strContains_self _))))
  · exact strContains_append_right _ _ _
      (strContains_append_left _ _ _ (strContains_self _))

/-- C8 as amended: the classification of httpNagiosHandler is CRITICAL
exactly when the master count is zero or above one, WARNING exactly when
there is one master and some server is down or the oldest check is older
than three times the interval, and OK otherwise; the summaries carry the
counts their format provides - the no-master CRITICAL line the standby and
down counts, the split-brain CRITICAL and the servers-down WARNING lines
all three counts, and the OK line the master and standby counts (the
stale-snapshot WARNING line reports only the age and the threshold). -/
theorem nagios_classification_and_summaries
    (now interval : Nat) (servers : List Server) :
    ((httpNagiosHandler now interval servers).1 = NagiosLevel.CRITICAL ↔
      (masterCount servers = 0 ∨ 1 < masterCount servers))
    ∧ ((httpNagiosHandler now interval servers).1 = NagiosLevel.WARNING ↔
      (masterCount servers = 1 ∧ (0 < downCount servers
        ∨ (interval : Int) * 3 < (now : Int) - (minCheckFrom now servers : Int))))
    ∧ ((httpNagiosHandler now interval servers).1 = NagiosLevel.OK ↔
      (masterCount servers = 1 ∧ downCount servers = 0
        ∧ (now : Int) - (minCheckFrom now servers : Int) ≤ (interval : Int) * 3))
    ∧ (masterCount servers = 0 →
        strContains (httpNagiosHandler now interval servers).2
          (toString (standbyCount servers)) = true
        ∧ strContains (httpNagiosHandler now interval servers).2
          (toString (downCount servers)) = true)
    ∧ (1 < masterCount servers →
        strContains (httpNagiosHandler now interval servers).2
          (toString (masterCount servers)) = true
        ∧ strContains (httpNagiosHandler now interval servers).2
          (toString (standbyCount servers)) = true
        ∧ strContains (httpNagiosHandler now interval servers).2
          (toString (downCount servers)) = true)
    ∧ (masterCount servers = 1 → 0 < downCount servers →
        strContains (httpNagiosHandler now interval servers).2
          (toString (masterCount servers)) = true
        ∧ strContains (httpNagiosHandler now interval servers).2
          (toString (standbyCount servers)) = true
        ∧ strContains (httpNagiosHandler now interval servers).2
          (toString (downCount servers)) = true)
    ∧ ((httpNagiosHandler now interval servers).1 = NagiosLevel.OK →
        strContains (httpNagiosHandler now interval servers).2
          (toString (masterCount servers)) = true
        ∧ strContains (httpNagiosHandler now interval servers).2
          (toString (standbyCount servers)) = true) := by
  rw [httpNagiosHandler_eq]
  have hiff := nagiosLevel_iff (masterCount servers) (downCount servers)
    ((now : Int) - (minCheckFrom now servers : Int)) ((interval : Int) * 3)
  refine ⟨hiff.1, hiff.2.1, hiff.2.2, ?_, ?_, ?_, ?_⟩
  · intro h0
    rw [h0]
    exact nagiosMessage_contains_zero_master (standbyCount servers)
      (downCount servers) ((now : Int) - (minCheckFrom now servers : Int))
      ((interval : Int) * 3)
  · intro h1
    exact nagiosMessage_contains_multi_master (masterCount servers)
      (standbyCount servers) (downCount servers)
      ((now : Int) - (minCheckFrom now servers : Int)) ((interval : Int) * 3) h1
  · intro h1 hd
    exact nagiosMessage_contains_down (masterCount servers)
      (standbyCount servers) (downCount servers)
      ((now : Int) - (minCheckFrom now servers : Int)) ((interval : Int) * 3)
      (by omega) (by omega) hd
  · intro hok
    have h := hiff.2.2.mp hok
    exact nagiosMessage_contains_ok (masterCount servers)
      (standbyCount servers) (downCount servers)
      ((now : Int) - (minCheckFrom now servers : Int)) ((interval : Int) * 3)
      (by omega) (by omega) (by omega) (by omega)

/-- Counterexample to the summary clause of C8 as stated: a snapshot with
one master, two standbys and no down members whose oldest check is 91
seconds old against a 30 second interval is classified WARNING (stale), yet
its one-line summary does not contain the standby count 2 - the stale
branch prints only the age, so not every summary includes the master,
standby and down counts. -/
theorem nagios_stale_warning_omits_counts :
    (httpNagiosHandler 100 30
        [Server.mk "m" "c" Status.MASTER 9 0,
         Server.mk "s1" "c" Status.STANDBY 50 0,
         Server.mk "s2" "c" Status.STANDBY 60 0]).1 = NagiosLevel.WARNING
    ∧ standbyCount
        [Server.mk "m" "c" Status.MASTER 9 0,
         Server.mk "s1" "c" Status.STANDBY 50 0,
         Server.mk "s2" "c" Status.STANDBY 60 0] = 2
    ∧ strContains
        (httpNagiosHandler 100 30
          [Server.mk "m" "c" Status.MASTER 9 0,
           Server.mk "s1" "c" Status.STANDBY 50 0,
           Server.mk "s2" "c" Status.STANDBY 60 0]).2
        (toString (standbyCount
          [Server.mk "m" "c" Status.MASTER 9 0,
           Server.mk "s1" "c" Status.STANDBY 50 0,
           Server.mk "s2" "c" Status.STANDBY 60 0])) = false := by
  decide

/-- Witness for C8 at a concrete snapshot with one master and one down
server: the WARNING summary contains all three counts. -/
theorem nagios_summary_witness :
    strContains (httpNagiosHandler 6 30
        [Server.mk "m" "c" Status.MASTER 5 0,
         Server.mk "d" "c" Status.DOWN 5 0]).2
      (toString (masterCount
        [Server.mk "m" "c" Status.MASTER 5 0,
         Server.mk "d" "c" Status.DOWN 5 0])) = true
    ∧ strContains (httpNagiosHandler 6 30
        [Server.mk "m" "c" Status.MASTER 5 0,
         Server.mk "d" "c" Status.DOWN 5 0]).2
      (toString (standbyCount
        [Server.mk "m" "c" Status.MASTER 5 0,
         Server.mk "d" "c" Status.DOWN 5 0])) = true
    ∧ strContains (httpNagiosHandler 6 30
        [Server.mk "m" "c" Status.MASTER 5 0,
         Server.mk "d" "c" Status.DOWN 5 0]).2
      (toString (downCount
        [Server.mk "m" "c" Status.MASTER 5 0,
         Server.mk "d" "c" Status.DOWN 5 0])) = true :=
  (nagios_classification_and_summaries 6 30
    [Server.mk "m" "c" Status.MASTER 5 0,
     Server.mk "d" "c" Status.DOWN 5 0]).2.2.2.2.2.1 (by decide) (by decide)

end Rebouncer
